import Mathlib

/-!
Shallow embedding of the POS offline-first inventory / checkout engine.

The embedding models the two stores an operation can touch:
`remote` (the Supabase `products` table) and `cache` (the AsyncStorage
`products` key).  Connectivity (`checkIsOnline`) is passed in as a `Bool`
argument; per-row remote write failures inside a batch are passed in as the
list of product ids whose remote row update errors.  A remote fetch while
online is modelled as succeeding (the code's degrade-to-local path on a
failed fetch behaves like the offline branch, which is covered by
`online = false`).

JS numbers carrying stock quantities, prices and cash are modelled as `Int`
(the data model declares stock an integer); ids are `String`.
-/

structure Product where
  id : String
  name : String
  price : Int
  stock : Int
  barcode : Option String := none
  category : Option String := none
  created_at : String := ""
deriving Repr, DecidableEq

/-- Cart line as consumed by the stock functions: `{id, quantity}`. -/
structure SaleItem where
  id : String
  quantity : Int
deriving Repr, DecidableEq

/-- One element of the `updates` array of `batchUpdateProductStock`. -/
structure StockUpdate where
  productId : String
  newStock : Int
deriving Repr, DecidableEq

/-- One entry of `insufficientItems` in `checkStockAvailability`. -/
structure Shortfall where
  id : String
  name : String
  requested : Int
  available : Int
deriving Repr, DecidableEq

/-- Result of `checkStockAvailability`. -/
structure CheckResult where
  success : Bool
  message : String
  insufficientItems : List Shortfall
deriving Repr, DecidableEq

/-- The two product stores: the remote `products` table and the local
AsyncStorage mirror. -/
structure St where
  remote : List Product
  cache : List Product
deriving Repr, DecidableEq

/-- `productService.getProducts`: online it fetches the remote table and
overwrites the cache with it (`storageService.saveProducts(data)`) before
returning it; offline it returns the cache unchanged. -/
def getProducts (online : Bool) (s : St) : List Product × St :=
  if online then (s.remote, { s with cache := s.remote }) else (s.cache, s)

/-- The product list an operation observes through `getProducts`. -/
def productView (online : Bool) (s : St) : List Product :=
  if online then s.remote else s.cache

/-- `product?.stock || 0` over the view used by `checkStockAvailability` and
`deductStockAfterCheckout` (for an `Int` stock, `x || 0` is `x`: it only
replaces the falsy `0` by `0`). -/
def availableStock (view : List Product) (pid : String) : Int :=
  match view.find? (fun p => p.id == pid) with
  | some p => p.stock
  | none => 0

/-- The push condition of the `checkStockAvailability` loop:
`!product || product.stock < item.quantity`. -/
def shortfallCond (view : List Product) (it : SaleItem) : Bool :=
  match view.find? (fun p => p.id == it.id) with
  | none => true
  | some p => decide (p.stock < it.quantity)

/-- The object pushed onto `insufficientItems` for `it`:
`{id, name: product?.name || "Product #" + id, requested, available}`. -/
def shortfallOf (view : List Product) (it : SaleItem) : Shortfall :=
  match view.find? (fun p => p.id == it.id) with
  | none =>
      { id := it.id, name := "Product #" ++ it.id,
        requested := it.quantity, available := 0 }
  | some p =>
      { id := it.id,
        name := if p.name = "" then "Product #" ++ it.id else p.name,
        requested := it.quantity, available := p.stock }

/-- `productService.checkStockAvailability`, as a pure function of the
product view its internal `getProducts()` call returned. -/
def checkStockAvailability (view : List Product) (items : List SaleItem) :
    CheckResult :=
  let ins := items.filterMap
    (fun it => if shortfallCond view it then some (shortfallOf view it) else none)
  if ins.isEmpty then
    { success := true, message := "Stock is available", insufficientItems := [] }
  else
    { success := false, message := "Some items have insufficient stock",
      insufficientItems := ins }

/-- The cache rewrite of `batchUpdateProductStock` on a single row:
`updates.find(u => u.productId === product.id)` and, when found, the row
with `stock` replaced by `update.newStock`. -/
def applyUpdatesToRow (updates : List StockUpdate) (p : Product) : Product :=
  match updates.find? (fun u => u.productId == p.id) with
  | some u => { p with stock := u.newStock }
  | none => p

/-- The wholesale cache rewrite of `batchUpdateProductStock`. -/
def applyUpdates (updates : List StockUpdate) (l : List Product) : List Product :=
  l.map (applyUpdatesToRow updates)

/-- One iteration of the online loop of `batchUpdateProductStock`:
`supabase.update({stock}).eq("id", productId)`; a failing row (its id in
`fails`) is logged and skipped without aborting the batch. -/
def remoteApplyOne (fails : List String) (r : List Product) (u : StockUpdate) :
    List Product :=
  if u.productId ∈ fails then r
  else r.map (fun p => if p.id == u.productId then { p with stock := u.newStock } else p)

/-- `productService.batchUpdateProductStock`: online, each update is applied
to the remote table (failures skipped); then the cache (read via
`storageService.getProducts`, not the remote) is always rewritten with all
requested values, and `true` is returned. -/
def batchUpdateProductStock (online : Bool) (fails : List String)
    (updates : List StockUpdate) (s : St) : Bool × St :=
  let remote₁ := if online then updates.foldl (remoteApplyOne fails) s.remote
                 else s.remote
  (true, { remote := remote₁, cache := applyUpdates updates s.cache })

/-- `productService.updateProductStock`: online it updates the remote row
first; a remote error is thrown, caught, and the function returns `false`
without touching either store.  On remote success (or offline) the cached
entry is set to the new stock and `true` is returned. -/
def updateProductStock (online : Bool) (rfail : Bool) (pid : String) (n : Int)
    (s : St) : Bool × St :=
  if online then
    if rfail then (false, s)
    else
      (true,
        { remote := s.remote.map (fun p => if p.id == pid then { p with stock := n } else p),
          cache := s.cache.map (fun p => if p.id == pid then { p with stock := n } else p) })
  else
    (true, { s with cache := s.cache.map (fun p => if p.id == pid then { p with stock := n } else p) })

/-- The `updates` array built by `deductStockAfterCheckout`:
`{productId: item.id, newStock: Math.max(0, (product?.stock || 0) - item.quantity)}`
per cart line, from one product snapshot. -/
def mkUpdates (view : List Product) (items : List SaleItem) : List StockUpdate :=
  items.map (fun it =>
    { productId := it.id, newStock := max 0 (availableStock view it.id - it.quantity) })

/-- `productService.deductStockAfterCheckout`: re-check availability (the
check fetches the product view itself); on failure return `false`; on
success fetch the view again, build the clamped updates and apply them via
`batchUpdateProductStock`. -/
def deductStockAfterCheckout (online : Bool) (fails : List String)
    (items : List SaleItem) (s : St) : Bool × St :=
  if (checkStockAvailability (getProducts online s).1 items).success then
    batchUpdateProductStock online fails
      (mkUpdates (getProducts online (getProducts online s).2).1 items)
      (getProducts online (getProducts online s).2).2
  else
    (false, (getProducts online s).2)

/-- One `deductStockAfterCheckout` call of a sequence: its connectivity,
its failing remote row ids, and its cart lines. -/
structure DeductCall where
  online : Bool
  fails : List String
  items : List SaleItem
deriving Repr

/-- Run a sequence of `deductStockAfterCheckout` calls, threading the store
state. -/
def runDeducts (calls : List DeductCall) (s : St) : St :=
  calls.foldl (fun st c => (deductStockAfterCheckout c.online c.fails c.items st).2) s

/-- The stock recorded in the cache for `pid`, if a row with that id is
cached. -/
def stockInCache (s : St) (pid : String) : Option Int :=
  (s.cache.find? (fun p => p.id == pid)).map Product.stock

/-- Every stock in the list is non-negative (as a decidable check). -/
def allNonneg (l : List Product) : Bool :=
  l.all (fun p => decide (0 ≤ p.stock))

/-! ## Checkout (CheckoutModal.handleSubmitTransaction) -/

/-- A cart line as held by the UI: `{id, name, price, quantity}`. -/
structure CartLine where
  id : String
  name : String
  price : Int
  quantity : Int
deriving Repr, DecidableEq

/-- A row of the `transactions` table as inserted by the checkout. -/
structure Txn where
  id : String
  total : Int
  cash_given : Int
  change : Int
  status : String
deriving Repr, DecidableEq

/-- A row of the `transaction_items` table. -/
structure TxnItem where
  transaction_id : String
  product_id : String
  quantity : Int
  price : Int
deriving Repr, DecidableEq

/-- All state the checkout can touch: the product stores plus the two
transaction tables. -/
structure World where
  st : St
  transactions : List Txn
  transactionItems : List TxnItem
deriving Repr, DecidableEq

/-- The fields of a cart line that `checkStockAvailability` and
`deductStockAfterCheckout` read (`item.id`, `item.quantity`). -/
def cartToItems (cart : List CartLine) : List SaleItem :=
  cart.map (fun c => { id := c.id, quantity := c.quantity })

/-- Outcome of `handleSubmitTransaction`: the state left behind, the error
message set (if any), and whether a receipt was produced. -/
structure SubmitResult where
  world : World
  errMsg : Option String
  receiptMade : Bool
deriving Repr, DecidableEq

/-- `handleSubmitTransaction` of `CheckoutModal`: check stock over the cart
(the check fetches the product view, syncing the cache when online); on a
shortfall set an error and return before any insert.  Otherwise insert the
transaction row (a remote error aborts with an error message), then the
item rows (same), then call `deductStockAfterCheckout` and build the
receipt.  `txnFail` / `itemsFail` model the two inserts' remote errors;
`newTxnId` is the server-assigned transaction id. -/
def handleSubmitTransaction (online : Bool) (fails : List String)
    (txnFail itemsFail : Bool) (newTxnId : String) (cart : List CartLine)
    (total cashGiven : Int) (w : World) : SubmitResult :=
  let r₁ := getProducts online w.st
  let check := checkStockAvailability r₁.1 (cartToItems cart)
  if check.success then
    if txnFail then
      { world := { w with st := r₁.2 },
        errMsg := some "transaction insert failed", receiptMade := false }
    else
      let txn : Txn :=
        { id := newTxnId, total := total, cash_given := cashGiven,
          change := cashGiven - total, status := "completed" }
      let w₁ : World := { w with st := r₁.2, transactions := w.transactions ++ [txn] }
      if itemsFail then
        { world := w₁, errMsg := some "items insert failed", receiptMade := false }
      else
        let titems : List TxnItem := cart.map (fun c =>
          { transaction_id := newTxnId, product_id := c.id,
            quantity := c.quantity, price := c.price })
        let w₂ : World := { w₁ with transactionItems := w₁.transactionItems ++ titems }
        let d := deductStockAfterCheckout online fails (cartToItems cart) w₂.st
        { world := { w₂ with st := d.2 }, errMsg := none, receiptMade := true }
  else
    { world := { w with st := r₁.2 },
      errMsg := some "Some items are out of stock", receiptMade := false }

/-- `isValidPayment` of `CheckoutModal`:
`cashGiven && parseFloat(cashGiven) >= total` (an empty input is falsy,
modelled as `none`). -/
def isValidPayment (cashGiven : Option Int) (total : Int) : Bool :=
  match cashGiven with
  | none => false
  | some c => decide (total ≤ c)

/-- The coordinator step around the submit handler: the Complete Sale
button is `disabled={!isValidPayment}`, so the handler only runs on a valid
payment; otherwise nothing happens. -/
def completeSale (online : Bool) (fails : List String) (txnFail itemsFail : Bool)
    (newTxnId : String) (cart : List CartLine) (total : Int)
    (cashGiven : Option Int) (w : World) : SubmitResult :=
  if isValidPayment cashGiven total then
    handleSubmitTransaction online fails txnFail itemsFail newTxnId cart total
      (cashGiven.getD 0) w
  else
    { world := w, errMsg := none, receiptMade := false }

/-! ## Sessions (authService.signOut / storageService.clearSession) -/

/-- Session state: the remote auth session plus the two LocalCache entries
(`user-session` and `auth-token`). -/
structure SessionWorld where
  remoteSession : Option String
  session : Option String
  authToken : Option String
deriving Repr, DecidableEq

/-- `storageService.clearSession`:
`AsyncStorage.multiRemove([KEYS.SESSION, KEYS.AUTH_TOKEN])`. -/
def clearSession (w : SessionWorld) : SessionWorld :=
  { w with session := none, authToken := none }

/-- `supabase.auth.signOut()`: the supabase client reports failure through
the returned `error` value rather than by throwing; on failure the remote
session is left as is. -/
def supabaseSignOut (remoteFail : Bool) (w : SessionWorld) :
    Option String × SessionWorld :=
  if remoteFail then (some "sign-out failed", w)
  else (none, { w with remoteSession := none })

/-- `authService.signOut`: attempt the remote sign-out (its result is
ignored), then clear the LocalCache session entries. -/
def signOut (remoteFail : Bool) (w : SessionWorld) : SessionWorld :=
  clearSession (supabaseSignOut remoteFail w).2

/-! ## Product creation (productService.createProduct) -/

/-- The draft the UI passes to `createProduct` (no id, no timestamp). -/
structure ProductDraft where
  name : String
  price : Int
  stock : Int
  barcode : Option String := none
  category : Option String := none
deriving Repr, DecidableEq

/-- The offline branch's new product object:
`{...product, id: "temp_" + Date.now(), created_at: new Date().toISOString()}`.
`now` is the millisecond clock reading and `nowIso` the ISO rendering of
the creation instant. -/
def offlinePlaceholder (draft : ProductDraft) (now : Nat) (nowIso : String) : Product :=
  { id := "temp_" ++ toString now, name := draft.name, price := draft.price,
    stock := draft.stock, barcode := draft.barcode,
    category := draft.category, created_at := nowIso }

/-- `productService.createProduct`: online, insert remotely (an error is
thrown to the caller), prepend the server row to the cache and return it;
offline, build the placeholder product, prepend it to the cache and return
it. -/
def createProduct (online : Bool) (insertFail : Bool) (serverRow : Product)
    (draft : ProductDraft) (now : Nat) (nowIso : String) (s : St) :
    Except String (Product × St) :=
  if online then
    if insertFail then Except.error "insert failed"
    else Except.ok (serverRow, { s with cache := serverRow :: s.cache })
  else
    Except.ok (offlinePlaceholder draft now nowIso,
      { s with cache := offlinePlaceholder draft now nowIso :: s.cache })

/-! ## Concrete instances used by counterexamples and witnesses -/

/-- C1 witness: a consistent one-product state with stock 5. -/
def c1st : St :=
  { remote := [{ id := "p1", name := "A", price := 1, stock := 5 }],
    cache := [{ id := "p1", name := "A", price := 1, stock := 5 }] }

/-- C1 witness: two deduction calls, the second with a failing remote row
and a quantity exceeding the stock. -/
def c1calls : List DeductCall :=
  [{ online := true, fails := [], items := [{ id := "p1", quantity := 2 }] },
   { online := false, fails := ["p1"], items := [{ id := "p1", quantity := 9 }] }]

/-- C2 witness: one product with stock 3. -/
def c2view : List Product := [{ id := "p1", name := "A", price := 1, stock := 3 }]

/-- C2 witness: a short request and an over-request of a missing product. -/
def c2items : List SaleItem :=
  [{ id := "p1", quantity := 5 }, { id := "p2", quantity := 1 }]

/-- C3: an online state whose cache (stock 7) is stale against the remote
table (stock 5). -/
def c3st : St :=
  { remote := [{ id := "p1", name := "A", price := 1, stock := 5 }],
    cache := [{ id := "p1", name := "A", price := 1, stock := 7 }] }

/-- C3: one cart line over-requesting the product. -/
def c3items : List SaleItem := [{ id := "p1", quantity := 10 }]

/-- C4: a consistent one-product state with stock 5. -/
def c4st : St :=
  { remote := [{ id := "p1", name := "A", price := 1, stock := 5 }],
    cache := [{ id := "p1", name := "A", price := 1, stock := 5 }] }

/-- C5: a checkout world whose cache (stock 7) is stale against the remote
table (stock 5), with empty transaction tables. -/
def c5w : World :=
  { st := { remote := [{ id := "p1", name := "A", price := 1, stock := 5 }],
            cache := [{ id := "p1", name := "A", price := 1, stock := 7 }] },
    transactions := [], transactionItems := [] }

/-- C5: a cart over-requesting the product. -/
def c5cart : List CartLine := [{ id := "p1", name := "A", price := 1, quantity := 10 }]

/-- C7 witness: an empty world. -/
def c7w : World :=
  { st := { remote := [], cache := [] }, transactions := [], transactionItems := [] }

/-- C10 witness: an offline state with one product of stock 10. -/
def c10st : St :=
  { remote := [], cache := [{ id := "p1", name := "A", price := 1, stock := 10 }] }

/-- C10 witness: two cart lines for the same product id. -/
def c10items : List SaleItem :=
  [{ id := "p1", quantity := 3 }, { id := "p1", quantity := 4 }]

/-! ## Helper lemmas -/

theorem getProducts_fst (online : Bool) (s : St) :
    (getProducts online s).1 = productView online s := by
  cases online <;> rfl

theorem getProducts_snd (online : Bool) (s : St) :
    (getProducts online s).2 = { remote := s.remote, cache := productView online s } := by
  cases online <;> rfl

theorem productView_stable (online : Bool) (s : St) :
    productView online { remote := s.remote, cache := productView online s }
      = productView online s := by
  cases online <;> rfl

theorem applyUpdatesToRow_id (u : List StockUpdate) (p : Product) :
    (applyUpdatesToRow u p).id = p.id := by
  unfold applyUpdatesToRow
  cases h : u.find? (fun x => x.productId == p.id) <;> simp [h]

theorem applyUpdatesToRow_idem (u : List StockUpdate) (p : Product) :
    applyUpdatesToRow u (applyUpdatesToRow u p) = applyUpdatesToRow u p := by
  unfold applyUpdatesToRow
  cases h : u.find? (fun x => x.productId == p.id) with
  | none => simp [h]
  | some v => simp [h]

theorem applyUpdates_idem (u : List StockUpdate) (l : List Product) :
    applyUpdates u (applyUpdates u l) = applyUpdates u l := by
  unfold applyUpdates
  rw [List.map_map]
  induction l with
  | nil => rfl
  | cons p t ih => simp [Function.comp, applyUpdatesToRow_idem, ih]

theorem allNonneg_iff (l : List Product) :
    allNonneg l = true ↔ ∀ p ∈ l, 0 ≤ p.stock := by
  simp [allNonneg, List.all_eq_true]

theorem deduct_eq_of_success (online : Bool) (fails : List String)
    (items : List SaleItem) (s : St)
    (h : (checkStockAvailability (productView online s) items).success = true) :
    deductStockAfterCheckout online fails items s
      = batchUpdateProductStock online fails (mkUpdates (productView online s) items)
          { remote := s.remote, cache := productView online s } := by
  unfold deductStockAfterCheckout
  rw [getProducts_fst, getProducts_snd, getProducts_fst, getProducts_snd]
  simp [productView_stable, h]

theorem deduct_eq_of_failure (online : Bool) (fails : List String)
    (items : List SaleItem) (s : St)
    (h : (checkStockAvailability (productView online s) items).success = false) :
    deductStockAfterCheckout online fails items s
      = (false, { remote := s.remote, cache := productView online s }) := by
  unfold deductStockAfterCheckout
  rw [getProducts_fst, getProducts_snd]
  simp [h]

theorem mkUpdates_nonneg (view : List Product) (items : List SaleItem) :
    ∀ u ∈ mkUpdates view items, 0 ≤ u.newStock := by
  intro u hu
  rcases List.mem_map.1 hu with ⟨it, _, rfl⟩
  exact le_max_left 0 _

theorem applyUpdates_nonneg (updates : List StockUpdate) (l : List Product)
    (hl : ∀ p ∈ l, 0 ≤ p.stock) (hu : ∀ u ∈ updates, 0 ≤ u.newStock) :
    ∀ p ∈ applyUpdates updates l, 0 ≤ p.stock := by
  intro p hp
  rcases List.mem_map.1 hp with ⟨q, hq, rfl⟩
  unfold applyUpdatesToRow
  cases h : updates.find? (fun u => u.productId == q.id) with
  | none => exact hl q hq
  | some u => simpa using hu u (List.mem_of_find?_eq_some h)

theorem remoteApplyOne_nonneg (fails : List String) (r : List Product)
    (u : StockUpdate) (hr : ∀ p ∈ r, 0 ≤ p.stock) (hu : 0 ≤ u.newStock) :
    ∀ p ∈ remoteApplyOne fails r u, 0 ≤ p.stock := by
  unfold remoteApplyOne
  split
  · exact hr
  · intro p hp
    rcases List.mem_map.1 hp with ⟨q, hq, rfl⟩
    by_cases h : q.id == u.productId <;> simp [h]
    · exact hu
    · exact hr q hq

theorem foldl_remote_nonneg (fails : List String) (updates : List StockUpdate)
    (r : List Product) (hr : ∀ p ∈ r, 0 ≤ p.stock)
    (hu : ∀ u ∈ updates, 0 ≤ u.newStock) :
    ∀ p ∈ updates.foldl (remoteApplyOne fails) r, 0 ≤ p.stock := by
  induction updates generalizing r with
  | nil => exact hr
  | cons u t ih =>
      exact ih _ (remoteApplyOne_nonneg fails r u hr (hu u (List.mem_cons_self u t)))
        (fun v hv => hu v (List.mem_cons_of_mem u hv))

theorem productView_nonneg (online : Bool) (s : St)
    (hc : ∀ p ∈ s.cache, 0 ≤ p.stock) (hr : ∀ p ∈ s.remote, 0 ≤ p.stock) :
    ∀ p ∈ productView online s, 0 ≤ p.stock := by
  cases online
  · exact hc
  · exact hr

theorem deduct_preserves_nonneg (online : Bool) (fails : List String)
    (items : List SaleItem) (s : St)
    (hc : ∀ p ∈ s.cache, 0 ≤ p.stock) (hr : ∀ p ∈ s.remote, 0 ≤ p.stock) :
    (∀ p ∈ (deductStockAfterCheckout online fails items s).2.cache, 0 ≤ p.stock) ∧
    (∀ p ∈ (deductStockAfterCheckout online fails items s).2.remote, 0 ≤ p.stock) := by
  by_cases h : (checkStockAvailability (productView online s) items).success = true
  · rw [deduct_eq_of_success online fails items s h]
    unfold batchUpdateProductStock
    constructor
    · exact applyUpdates_nonneg _ _ (productView_nonneg online s hc hr)
        (mkUpdates_nonneg _ _)
    · simp only
      split
      · exact foldl_remote_nonneg fails _ _ hr (mkUpdates_nonneg _ _)
      · exact hr
  · rw [deduct_eq_of_failure online fails items s (Bool.eq_false_iff.2 (fun hx => h hx))]
    exact ⟨productView_nonneg online s hc hr, hr⟩

/-! ## Claim theorems -/

/-- C1: starting from a state in which every product's stock (cached and
remote) is non-negative, after any sequence of `deductStockAfterCheckout`
calls every product's stock in the cached product list is still `>= 0`
(and so is every remote stock).  Since the theorem holds for every call
list, it holds in particular for every prefix of a sequence, i.e. after
each call. -/
theorem c1_deduct_keeps_stock_nonneg (calls : List DeductCall) (s : St)
    (hc : allNonneg s.cache = true) (hr : allNonneg s.remote = true) :
    allNonneg (runDeducts calls s).cache = true ∧
    allNonneg (runDeducts calls s).remote = true := by
  induction calls generalizing s with
  | nil => exact ⟨hc, hr⟩
  | cons c t ih =>
      have hstep := deduct_preserves_nonneg c.online c.fails c.items s
        ((allNonneg_iff s.cache).1 hc) ((allNonneg_iff s.remote).1 hr)
      exact ih _ ((allNonneg_iff _).2 hstep.1) ((allNonneg_iff _).2 hstep.2)

/-- C1 witness: the invariant holds on a concrete state and a concrete
two-call sequence (one online, one offline with a failing remote row and an
over-requesting quantity). -/
theorem c1_deduct_keeps_stock_nonneg_witness :
    allNonneg c1st.cache = true ∧ allNonneg c1st.remote = true ∧
    (allNonneg (runDeducts c1calls c1st).cache = true ∧
     allNonneg (runDeducts c1calls c1st).remote = true) :=
  ⟨by decide, by decide, c1_deduct_keeps_stock_nonneg c1calls c1st (by decide) (by decide)⟩

/-- C4 counterexample: while online, with the remote row update failing,
`updateProductStock` returns `false` (not `true`) and leaves the whole
state — including the cached entry, still at stock 5 — unchanged, contrary
to the claim that it still updates the LocalCache entry to the new value
and reports success. -/
theorem c4_counterexample :
    (updateProductStock true true "p1" 9 c4st).1 = false ∧
    (updateProductStock true true "p1" 9 c4st).2 = c4st ∧
    stockInCache (updateProductStock true true "p1" 9 c4st).2 "p1" = some 5 := by
  decide

/-- C4 amended: for every call to `updateProductStock` made while online in
which the remote row update fails, the operation leaves both stores
unchanged (in particular the LocalCache entry keeps its old stock) and
reports failure (returns `false`). -/
theorem c4_amended_remote_failure_leaves_state (pid : String) (n : Int) (s : St) :
    updateProductStock true true pid n s = (false, s) := rfl

/-- C6: after every `signOut` call the LocalCache session and auth-token
entries are cleared, including when the remote sign-out attempt fails (the
supabase client reports failure through its returned error value, which the
code ignores before calling `clearSession`). -/
theorem c6_signOut_clears_local_session (remoteFail : Bool) (w : SessionWorld) :
    (signOut remoteFail w).session = none ∧ (signOut remoteFail w).authToken = none := by
  cases remoteFail <;> simp [signOut, clearSession, supabaseSignOut]

/-- C7: when `cash_given` is absent or below the total, the coordinator
refuses to run the submit handler (the Complete Sale button is disabled),
so the world — in particular the `transactions` table — is unchanged and no
Transaction row is created. -/
theorem c7_invalid_payment_blocks_persisting (online : Bool) (fails : List String)
    (txnFail itemsFail : Bool) (newTxnId : String) (cart : List CartLine)
    (total : Int) (cashGiven : Option Int) (w : World)
    (h : cashGiven = none ∨ ∃ c, cashGiven = some c ∧ c < total) :
    completeSale online fails txnFail itemsFail newTxnId cart total cashGiven w
      = { world := w, errMsg := none, receiptMade := false } := by
  have hv : isValidPayment cashGiven total = false := by
    rcases h with h | ⟨c, hc, hlt⟩
    · simp [isValidPayment, h]
    · simp [isValidPayment, hc, not_le.2 hlt]
  simp [completeSale, hv]

/-- C7 witness: with total 100 and cash 50, the sale is refused and the
world is unchanged. -/
theorem c7_invalid_payment_blocks_persisting_witness :
    completeSale true [] false false "t1" [] 100 (some 50) c7w
      = { world := c7w, errMsg := none, receiptMade := false } :=
  c7_invalid_payment_blocks_persisting true [] false false "t1" [] 100 (some 50) c7w
    (Or.inr ⟨50, rfl, by decide⟩)

/-- C8: applying `batchUpdateProductStock` twice with the same update set
(under any connectivity and any per-row remote failures) produces the same
cached stock values as applying it once. -/
theorem c8_batchUpdate_idempotent_on_cache (online₁ online₂ : Bool)
    (fails₁ fails₂ : List String) (updates : List StockUpdate) (s : St) :
    (batchUpdateProductStock online₂ fails₂ updates
        ((batchUpdateProductStock online₁ fails₁ updates s).2)).2.cache
      = (batchUpdateProductStock online₁ fails₁ updates s).2.cache := by
  simp [batchUpdateProductStock, applyUpdates_idem]

/-- C9: a product created while offline is the draft extended with the id
`temp_<millisecond-timestamp>` and the fresh `created_at` timestamp; it is
prepended to the cached list, and an offline `getProducts` immediately
after returns it first. -/
theorem c9_offline_create_placeholder (insertFail : Bool) (serverRow : Product)
    (draft : ProductDraft) (now : Nat) (nowIso : String) (s : St) :
    createProduct false insertFail serverRow draft now nowIso s
      = Except.ok (offlinePlaceholder draft now nowIso,
          { s with cache := offlinePlaceholder draft now nowIso :: s.cache }) ∧
    (offlinePlaceholder draft now nowIso).id = "temp_" ++ toString now ∧
    (offlinePlaceholder draft now nowIso).created_at = nowIso ∧
    (offlinePlaceholder draft now nowIso).name = draft.name ∧
    (offlinePlaceholder draft now nowIso).price = draft.price ∧
    (offlinePlaceholder draft now nowIso).stock = draft.stock ∧
    (offlinePlaceholder draft now nowIso).barcode = draft.barcode ∧
    (offlinePlaceholder draft now nowIso).category = draft.category ∧
    (getProducts false { s with cache := offlinePlaceholder draft now nowIso :: s.cache }).1.head?
      = some (offlinePlaceholder draft now nowIso) :=
  ⟨rfl, rfl, rfl, rfl, rfl, rfl, rfl, rfl, rfl⟩

theorem check_insufficient_eq (view : List Product) (items : List SaleItem) :
    (checkStockAvailability view items).insufficientItems
      = items.filterMap
          (fun it => if shortfallCond view it then some (shortfallOf view it) else none) := by
  unfold checkStockAvailability
  by_cases h : (items.filterMap
      (fun it => if shortfallCond view it then some (shortfallOf view it) else none)).isEmpty
  · simp [h, List.isEmpty_iff.1 h]
  · simp [h]

theorem shortfallOf_id (view : List Product) (it : SaleItem) :
    (shortfallOf view it).id = it.id := by
  unfold shortfallOf
  cases h : view.find? (fun p => p.id == it.id) <;> rfl

theorem shortfallOf_requested (view : List Product) (it : SaleItem) :
    (shortfallOf view it).requested = it.quantity := by
  unfold shortfallOf
  cases h : view.find? (fun p => p.id == it.id) <;> rfl

theorem shortfallCond_ext (view : List Product) (it it' : SaleItem)
    (h1 : it'.id = it.id) (h2 : it'.quantity = it.quantity) :
    shortfallCond view it' = shortfallCond view it := by
  unfold shortfallCond
  rw [h1, h2]

theorem shortfallCond_iff (view : List Product) (it : SaleItem)
    (hq : 0 < it.quantity) :
    shortfallCond view it = true ↔ availableStock view it.id < it.quantity := by
  unfold shortfallCond availableStock
  cases h : view.find? (fun p => p.id == it.id) with
  | none => simp [hq]
  | some p => simp

/-- C2: assuming the positive quantities of the cart data model, for every
requested item and every product view observed by the call,
`checkStockAvailability` records the shortfall entry for that item iff its
requested quantity exceeds the stock available for its product id in the
view, a missing product counting as available stock 0. -/
theorem c2_shortfall_iff (view : List Product) (items : List SaleItem)
    (it : SaleItem) (hpos : ∀ x ∈ items, 0 < x.quantity) (hmem : it ∈ items) :
    shortfallOf view it ∈ (checkStockAvailability view items).insufficientItems
      ↔ availableStock view it.id < it.quantity := by
  rw [check_insufficient_eq]
  constructor
  · intro h
    rcases List.mem_filterMap.1 h with ⟨it', hmem', hf⟩
    cases hcond : shortfallCond view it' with
    | false => simp [hcond] at hf
    | true =>
        rw [if_pos hcond] at hf
        have hf' := Option.some.inj hf
        have hid : it'.id = it.id := by
          rw [← shortfallOf_id view it', hf', shortfallOf_id]
        have hqty : it'.quantity = it.quantity := by
          rw [← shortfallOf_requested view it', hf', shortfallOf_requested]
        have : shortfallCond view it = true := by
          rw [← shortfallCond_ext view it it' hid hqty]
          exact hcond
        exact (shortfallCond_iff view it (hpos it hmem)).1 this
  · intro h
    exact List.mem_filterMap.2
      ⟨it, hmem, by rw [if_pos ((shortfallCond_iff view it (hpos it hmem)).2 h)]⟩

/-- C2 witness: with one cached product of stock 3, a request of 5 for it
is recorded as a shortfall exactly because 3 < 5. -/
theorem c2_shortfall_iff_witness :
    shortfallOf c2view { id := "p1", quantity := 5 }
        ∈ (checkStockAvailability c2view c2items).insufficientItems
      ↔ availableStock c2view "p1" < 5 :=
  c2_shortfall_iff c2view c2items { id := "p1", quantity := 5 } (by decide) (by decide)

/-- C3 counterexample: in an online state whose cache (stock 7) is stale
against the remote table (stock 5), a `deductStockAfterCheckout` whose
availability re-check fails does report failure — but the cached stock
value of the product changes from 7 to 5, because the check's
`getProducts()` overwrites the cache with the fetched remote snapshot.  So
"no product's stock value is modified ... in the local cache" is false as
stated. -/
theorem c3_counterexample :
    (deductStockAfterCheckout true [] c3items c3st).1 = false ∧
    stockInCache c3st "p1" = some 7 ∧
    stockInCache (deductStockAfterCheckout true [] c3items c3st).2 "p1" = some 5 := by
  decide

/-- C3 amended: if the availability re-check inside
`deductStockAfterCheckout` fails, the call reports failure, the remote
store is not modified, and no deduction is applied to any stock value: the
only cache change is the read-through refresh that replaces the cache with
the product view fetched by the check (offline, the cache is unchanged). -/
theorem c3_amended_failed_check_no_deduction (online : Bool) (fails : List String)
    (items : List SaleItem) (s : St)
    (h : (checkStockAvailability (productView online s) items).success = false) :
    deductStockAfterCheckout online fails items s
      = (false, { remote := s.remote, cache := productView online s }) :=
  deduct_eq_of_failure online fails items s h

/-- C3 amended witness: the amended statement at the concrete stale-cache
state. -/
theorem c3_amended_failed_check_no_deduction_witness :
    (checkStockAvailability (productView true c3st) c3items).success = false ∧
    deductStockAfterCheckout true [] c3items c3st
      = (false, { remote := c3st.remote, cache := productView true c3st }) :=
  ⟨by decide, c3_amended_failed_check_no_deduction true [] c3items c3st (by decide)⟩

/-- C5 counterexample: in an online checkout whose cache (stock 7) is stale
against the remote table (stock 5), a cart with a shortfall aborts with an
error and inserts no Transaction row and no TransactionItem row — but the
cached stock value of the product changes from 7 to 5, because the
availability check's `getProducts()` overwrites the cache with the fetched
remote snapshot.  So "no stock value is changed" is false as stated. -/
theorem c5_counterexample :
    (handleSubmitTransaction true [] false false "t1" c5cart 10 20 c5w).world.transactions = [] ∧
    (handleSubmitTransaction true [] false false "t1" c5cart 10 20 c5w).world.transactionItems = [] ∧
    (handleSubmitTransaction true [] false false "t1" c5cart 10 20 c5w).errMsg
      = some "Some items are out of stock" ∧
    stockInCache c5w.st "p1" = some 7 ∧
    stockInCache (handleSubmitTransaction true [] false false "t1" c5cart 10 20 c5w).world.st "p1"
      = some 5 := by
  decide

/-- C5 amended: when the availability check over the cart reports a
shortfall, the checkout aborts with an error before any persistence: no
Transaction row and no TransactionItem row is inserted, the remote store is
not modified, and no deduction is applied to any stock value — the only
cache change is the read-through refresh that replaces the cache with the
product view fetched by the check. -/
theorem c5_amended_shortfall_blocks_persistence (online : Bool) (fails : List String)
    (txnFail itemsFail : Bool) (newTxnId : String) (cart : List CartLine)
    (total cashGiven : Int) (w : World)
    (h : (checkStockAvailability (productView online w.st) (cartToItems cart)).success = false) :
    handleSubmitTransaction online fails txnFail itemsFail newTxnId cart total cashGiven w
      = { world := { w with st := { remote := w.st.remote, cache := productView online w.st } },
          errMsg := some "Some items are out of stock", receiptMade := false } := by
  simp [handleSubmitTransaction, getProducts_fst, getProducts_snd, h]

/-- C5 amended witness: the amended statement at the concrete stale-cache
world. -/
theorem c5_amended_shortfall_blocks_persistence_witness :
    (checkStockAvailability (productView true c5w.st) (cartToItems c5cart)).success = false ∧
    handleSubmitTransaction true [] false false "t1" c5cart 10 20 c5w
      = { world := { c5w with st := { remote := c5w.st.remote, cache := productView true c5w.st } },
          errMsg := some "Some items are out of stock", receiptMade := false } :=
  ⟨by decide,
   c5_amended_shortfall_blocks_persistence true [] false false "t1" c5cart 10 20 c5w (by decide)⟩

/-- C10: when a cart passed to `deductStockAfterCheckout` contains several
lines with the same product id and the deduction runs, each line's new
stock is computed from the same pre-sale snapshot and the cache rewrite
applies only the first matching update per product: the product's cached
row afterwards is its snapshot row with stock
`max 0 (stock - quantity of the FIRST line with that id)` — duplicate
quantities are not cumulative. -/
theorem c10_first_line_wins (online : Bool) (fails : List String)
    (items : List SaleItem) (s : St) (pid : String) (it : SaleItem)
    (hrun : (deductStockAfterCheckout online fails items s).1 = true)
    (hfind : items.find? (fun x => x.id == pid) = some it) :
    (deductStockAfterCheckout online fails items s).2.cache.find? (fun p => p.id == pid)
      = ((productView online s).find? (fun p => p.id == pid)).map
          (fun q => { q with stock := max 0 (q.stock - it.quantity) }) := by
  cases hsucc : (checkStockAvailability (productView online s) items).success with
  | false =>
      rw [deduct_eq_of_failure online fails items s hsucc] at hrun
      simp at hrun
  | true =>
      rw [deduct_eq_of_success online fails items s hsucc]
      simp only [batchUpdateProductStock]
      show (applyUpdates (mkUpdates (productView online s) items)
              (productView online s)).find? (fun p => p.id == pid) = _
      unfold applyUpdates
      rw [List.find?_map]
      have hpred : ((fun p : Product => p.id == pid)
            ∘ applyUpdatesToRow (mkUpdates (productView online s) items))
          = (fun q : Product => q.id == pid) := by
        funext q
        simp [Function.comp, applyUpdatesToRow_id]
      rw [hpred]
      cases hv : (productView online s).find? (fun q => q.id == pid) with
      | none => simp
      | some q =>
          have hqid : q.id = pid := by
            have := List.find?_some hv
            simpa using this
          have hav : availableStock (productView online s) pid = q.stock := by
            unfold availableStock
            rw [hv]
          have hitid : it.id = pid := by
            have := List.find?_some hfind
            simpa using this
          simp only [Option.map_some']
          unfold applyUpdatesToRow
          simp only [hqid]
          unfold mkUpdates
          rw [List.find?_map]
          have hpred2 : ((fun u : StockUpdate => u.productId == pid)
                ∘ (fun x : SaleItem =>
                    ({ productId := x.id,
                       newStock := max 0 (availableStock (productView online s) x.id - x.quantity) }
                      : StockUpdate)))
              = (fun x : SaleItem => x.id == pid) := by
            funext x
            rfl
          rw [hpred2, hfind]
          simp [hitid, hav]

/-- C10 witness: offline, stock 10, two lines for the same product with
quantities 3 and 4: the availability check passes, the first line is found
first, and the cached stock afterwards is 7 = max 0 (10 - 3), not 3. -/
theorem c10_first_line_wins_witness :
    stockInCache (deductStockAfterCheckout false [] c10items c10st).2 "p1" = some 7 := by
  have h := c10_first_line_wins false [] c10items c10st "p1"
    { id := "p1", quantity := 3 } (by decide) (by decide)
  unfold stockInCache
  rw [h]
  decide
